import Mathlib

/-!
Verification of the shape-average / bandwidth audit script (`src/shape_avg.py`)
against its natural-language specification.

The script's per-device worker `check_shape_bandwidth` and the orchestration
loop in `main` are shallowly embedded below.  Python strings are Lean
`String`s; the handful of Python primitives the script uses — `str.split(' ')`,
`str.split()`, `' '.join`, `list.remove`, `[*set(..)]`, `int(..)`, `in`,
negative indexing — are modelled by structurally recursive functions over the
character list, so that every definition evaluates inside the kernel.
Fallible Python operations (`list.remove` on a missing element, `[-1]` on an
empty list, `int` on a non-numeral) return `Except`, mirroring the exceptions
they raise.
-/

namespace ShapeAvg

/-! ### Python string primitives -/

/-- Auxiliary for `pysplitSpace`: accumulates the current chunk (reversed). -/
def splitOnSpaceAux : List Char → List Char → List String
  | [], acc => [⟨acc.reverse⟩]
  | c :: rest, acc =>
      if c = ' ' then ⟨acc.reverse⟩ :: splitOnSpaceAux rest []
      else splitOnSpaceAux rest (c :: acc)

/-- Python `s.split(' ')`: split at every single space, keeping empty chunks
(`''.split(' ') == ['']`, `'a  b'.split(' ') == ['a', '', 'b']`). -/
def pysplitSpace (s : String) : List String := splitOnSpaceAux s.data []

/-- Auxiliary for `pysplitWS`. -/
def splitWSAux : List Char → List Char → List String
  | [], [] => []
  | [], acc => [⟨acc.reverse⟩]
  | c :: rest, acc =>
      if c.isWhitespace then
        (if acc.isEmpty then splitWSAux rest [] else ⟨acc.reverse⟩ :: splitWSAux rest [])
      else splitWSAux rest (c :: acc)

/-- Python `s.split()` (no argument): split on runs of whitespace, dropping
empty chunks (`''.split() == []`, `' a  b '.split() == ['a', 'b']`).
Whitespace here is space, tab, carriage return and newline, which covers the
characters occurring in device command output. -/
def pysplitWS (s : String) : List String := splitWSAux s.data []

/-- Python `' '.join(lst)`. -/
def joinSpace : List String → String
  | [] => ""
  | [x] => x
  | x :: y :: rest => x ++ " " ++ joinSpace (y :: rest)

/-- Python `lst[-1]` on a list of strings: the last element, or an
`IndexError` on the empty list. -/
def pylast : List String → Except String String
  | [] => .error "IndexError: list index out of range"
  | [x] => .ok x
  | _ :: y :: rest => pylast (y :: rest)

/-- Python `lst[-1]` where the list is known non-empty (`str.split(' ')` never
returns an empty list); the default is never reached. -/
def pylastSpace (s : String) : String := (pysplitSpace s).getLastD ""

/-- Auxiliary for `pyUniq`: `seen` holds the values already emitted. -/
def pyUniqAux : List String → List String → List String
  | [], _ => []
  | x :: xs, seen =>
      if x ∈ seen then pyUniqAux xs seen else x :: pyUniqAux xs (x :: seen)

/-- Python `[*set(lst)]`: the distinct values of `lst`.  CPython's `set`
iteration order is hash-dependent; the embedding fixes the deterministic
first-occurrence order.  No theorem below depends on the order: the script
only takes the length of this list, tests membership, and indexes `[0]` in a
state where the list has at most one element. -/
def pyUniq (l : List String) : List String := pyUniqAux l []

/-- Removes the first occurrence of `x` (helper for `pyremove`). -/
def eraseFirst : List String → String → List String
  | [], _ => []
  | y :: ys, x => if y = x then ys else y :: eraseFirst ys x

/-- Python `lst.remove(x)`: drop the first occurrence of `x`, or raise
`ValueError` when `x` does not occur. -/
def pyremove (l : List String) (x : String) : Except String (List String) :=
  if x ∈ l then .ok (eraseFirst l x) else .error "ValueError: list.remove(x): x not in list"

/-- Python `while x in lst: lst.remove(x)`: removing the first occurrence
until none remains deletes every occurrence, i.e. it is `filter (· ≠ x)`. -/
def removeEvery (l : List String) (x : String) : List String :=
  l.filter (fun y => y ≠ x)

/-- Prefix test on character lists (pattern first). -/
def charsHasPrefix : List Char → List Char → Bool
  | [], _ => true
  | _ :: _, [] => false
  | p :: ps, c :: cs => p = c && charsHasPrefix ps cs

/-- Substring occurrence test on character lists (pattern first). -/
def charsContains (pat : List Char) : List Char → Bool
  | [] => charsHasPrefix pat []
  | c :: cs => charsHasPrefix pat (c :: cs) || charsContains pat cs

/-- Python `sub in s` for strings: substring containment. -/
def pyContains (s sub : String) : Bool := charsContains sub.data s.data

/-- Drops leading whitespace (helper for `pyStrip`). -/
def dropLeadingWS : List Char → List Char
  | [] => []
  | c :: cs => if c.isWhitespace then dropLeadingWS cs else c :: cs

/-- Python `s.strip()` on the character list. -/
def pyStrip (cs : List Char) : List Char :=
  ((dropLeadingWS cs).reverse |> dropLeadingWS).reverse

/-- Numeric value of a digit run. -/
def digitsVal (ds : List Char) : Nat :=
  ds.foldl (fun a c => a * 10 + (c.toNat - 48)) 0

/-- Python `int(s)`: strip surrounding whitespace, allow one optional sign,
then require a non-empty run of decimal digits; anything else raises
`ValueError`.  (CPython additionally accepts underscore digit separators and
non-ASCII digits; those never occur in device command output and are not
modelled.) -/
def pyint (s : String) : Except String Int :=
  let err : Except String Int :=
    .error ("ValueError: invalid literal for int() with base 10: " ++ s)
  match pyStrip s.data with
  | '-' :: ds =>
      if ds ≠ [] ∧ ds.all Char.isDigit then .ok (-(digitsVal ds : Int)) else err
  | '+' :: ds =>
      if ds ≠ [] ∧ ds.all Char.isDigit then .ok (digitsVal ds : Int) else err
  | ds =>
      if ds ≠ [] ∧ ds.all Char.isDigit then .ok (digitsVal ds : Int) else err

/-- Decimal digits of `n`, via a structural fuel argument (`fuel > n`
suffices, so `natReprAux (n+1) n` is exact). -/
def natReprAux : Nat → Nat → List Char
  | 0, _ => []
  | _ + 1, 0 => []
  | fuel + 1, n => natReprAux fuel (n / 10) ++ [Char.ofNat (48 + n % 10)]

/-- Python `str(n)` for a natural number. -/
def pyNatRepr (n : Nat) : String :=
  if n = 0 then "0" else ⟨natReprAux (n + 1) n⟩

/-- Python `str(i)` / f-string interpolation of an `int`. -/
def pyIntRepr : Int → String
  | .ofNat n => pyNatRepr n
  | .negSucc n => "-" ++ pyNatRepr (n + 1)

/-- A single-quote character, for Python's `repr` of strings. -/
def sq : String := ⟨[Char.ofNat 39]⟩

/-- Elements of a Python list `repr`, comma-separated, each single-quoted. -/
def pyReprElems : List String → String
  | [] => ""
  | [x] => sq ++ x ++ sq
  | x :: y :: rest => sq ++ x ++ sq ++ ", " ++ pyReprElems (y :: rest)

/-- Python f-string interpolation of a list of strings,
e.g. `['10000', '20000']`. -/
def pyReprStrList (l : List String) : String := "[" ++ pyReprElems l ++ "]"

/-! ### Data model

`check_shape_bandwidth` builds a Python dict with keys `ip`, `hostname`,
`bandwidth`, `shape_avg`, `results`, `comments`, `timestamp`.  The
`bandwidth` / `shape_avg` values are dynamically typed: `None`, a string
(the opaque marker or a raw token), or an `int`. -/

/-- A value stored in the `bandwidth` / `shape_avg` dict entries. -/
inductive CellVal where
  | null
  | str (s : String)
  | int (n : Int)
deriving DecidableEq, Repr

/-- The per-device result dict.  `hostname := none` models the key being
absent (it is only assigned after the hostname command succeeds).
`timestamp` abstracts `datetime.datetime.now(tz=EST)`: the script stamps it
once, at the very end of `check_shape_bandwidth` (src line 304). -/
structure Record where
  ip : String
  hostname : Option String
  bandwidth : CellVal
  shape_avg : CellVal
  results : String
  comments : String
  timestamp : Nat
deriving DecidableEq, Repr

/-- Outcome fields produced by one branch of the decision tree, together with
the severity of the log line that branch emits (`logger.info` vs
`logger.error`). -/
structure StepOut where
  bandwidth : CellVal
  shape_avg : CellVal
  results : String
  comments : String
  logLevel : String
deriving DecidableEq, Repr

/-- The external world for one device, as seen through the netmiko session:
the result of `ConnectHandler` (which fails only with the netmiko exceptions
caught at src line 295), of `enable()`, and of the three `send_command`
calls.  An `.error e` models the call raising an exception with text `e`;
`disconnect()` is modelled as always succeeding. -/
structure DeviceEnv where
  connect : Except String Unit
  enable : Except String Unit
  hostnameCmd : Except String String
  bandwidthCmd : Except String String
  shapeCmd : Except String String

/-! ### Decision tree (src lines 119–280) -/

/-- Bypass branch, src lines 120–130: hostname contains `"be"`. -/
def bypassOut (device hostname : String) : StepOut :=
  ⟨.str "see comment", .str "see comment", "Skipped",
    device ++ " - " ++ hostname ++ " bypassed because of best effort services.",
    "INFO"⟩

/-- Both statements missing, src lines 141–151. -/
def missingBothOut (device hostname : String) : StepOut :=
  ⟨.null, .null, "Fail",
    device ++ " - " ++ hostname ++ " missing bandwidth and shape average statements!",
    "ERROR"⟩

/-- Bandwidth present, shape absent, src lines 153–164.  Note the source
writes the literal `'see comments'` (plural) here, unlike every other
opaque-marker assignment. -/
def missingShapeOut (device hostname bandwidth_output : String) : StepOut :=
  ⟨.str "see comments", .null, "Fail",
    device ++ " - " ++ hostname ++ " missing shape average statement! Bandwidth output: "
      ++ bandwidth_output,
    "ERROR"⟩

/-- Bandwidth absent, shape present, src lines 166–177.  The source's comment
text says "missing shape average statement" here as well (copy-paste from the
previous branch); embedded verbatim. -/
def missingBandwidthOut (device hostname shape_output : String) : StepOut :=
  ⟨.null, .str "see comment", "Fail",
    device ++ " - " ++ hostname ++ " missing shape average statement! Shape average output: "
      ++ shape_output,
    "ERROR"⟩

/-- Ambiguous bandwidth branch, src lines 188–199. -/
def bwAmbigOut (device hostname : String) (toks : List String) (shape_output : String) :
    StepOut :=
  ⟨.str "see comment", .str "see comment", "Fail",
    device ++ " - " ++ hostname ++ " has more than 1 bandwidth: " ++ pyReprStrList toks
      ++ ". Shape average output: " ++ shape_output,
    "ERROR"⟩

/-- Ambiguous / duplicate shape-average branch, src lines 212–222. -/
def shapeAmbigOut (device hostname b0 : String) (toks : List String) : StepOut :=
  ⟨.str b0, .str "see comment", "Fail",
    device ++ " - " ++ hostname ++ " has more than 1 shape average statement: "
      ++ pyReprStrList toks,
    "ERROR"⟩

/-- Final comparison, src lines 224–280: both values parsed, bandwidth scaled
by 1000, classified by `bandwidth_to_mb - shape`.  All three branches record
`Pass`; the catch-all branch logs at error severity. -/
def finalCompare (device hostname : String) (bandwidth shape : Int) : StepOut :=
  let bandwidth_to_mb := bandwidth * 1000
  if bandwidth_to_mb - shape = 0 then
    ⟨.int bandwidth_to_mb, .int shape, "Pass",
      device ++ " - " ++ hostname ++ "(Exact Match) Bandwidth = "
        ++ pyIntRepr bandwidth_to_mb ++ " Shape = " ++ pyIntRepr shape,
      "INFO"⟩
  else if bandwidth_to_mb - shape = 1 then
    ⟨.int bandwidth_to_mb, .int shape, "Pass",
      device ++ " - " ++ hostname ++ " (Delta = 1) Bandwidth = "
        ++ pyIntRepr bandwidth_to_mb ++ " Shape = " ++ pyIntRepr shape,
      "INFO"⟩
  else
    ⟨.int bandwidth_to_mb, .int shape, "Pass",
      device ++ " - " ++ hostname ++ " (Delta > 1) Bandwidth "
        ++ pyIntRepr bandwidth_to_mb ++ " and shape" ++ pyIntRepr shape ++ " mismatch!",
      "ERROR"⟩

/-- Src lines 181–185: `bandwidth_output.split(' ')`, rejoin, whitespace
split, collapse with `set`, then `list.remove('bandwidth')` — which raises
`ValueError` when no token equals `"bandwidth"`. -/
def bandwidthTokens (bandwidth_output : String) : Except String (List String) :=
  let bandwidth_lst := pysplitSpace bandwidth_output
  let bandwidth_full_lst := pysplitWS (joinSpace bandwidth_lst)
  pyremove (pyUniq bandwidth_full_lst) "bandwidth"

/-- Src lines 202–209: whitespace-tokenize the shape text and strip every
occurrence of the literal tokens `"shape"` and `"average"` (no
deduplication). -/
def shapeTokens (shape_output : String) : List String :=
  let shape_lst := pysplitSpace shape_output
  let shape_txt_lst := pysplitWS (joinSpace shape_lst)
  removeEvery (removeEvery shape_txt_lst "shape") "average"

/-- Src lines 224–280 (the `else` of the shape-ambiguity check): take the
last remaining shape token and the last whitespace token of the raw
bandwidth output, parse both with `int`, and compare. -/
def parseAndCompare (device hostname : String)
    (bandwidth_lst shape_txt_lst : List String) : Except String StepOut :=
  match pylast (pysplitWS (joinSpace shape_txt_lst)) with
  | .error e => .error e
  | .ok shape_txt =>
    match pyint shape_txt with
    | .error e => .error e
    | .ok shape =>
      match pylast (pysplitWS (joinSpace bandwidth_lst)) with
      | .error e => .error e
      | .ok bandwidth_txt =>
        match pyint bandwidth_txt with
        | .error e => .error e
        | .ok bandwidth => .ok (finalCompare device hostname bandwidth shape)

/-- Src lines 202–280: the shape-ambiguity check and, past it, the numeric
comparison.  `bandwidth_txt_lst[0]` raises `IndexError` when the deduplicated
bandwidth token list is empty. -/
def shapeStep (device hostname : String)
    (bandwidth_lst bandwidth_txt_lst : List String) (shape_output : String) :
    Except String StepOut :=
  let shape_txt_lst := shapeTokens shape_output
  if 2 ≤ shape_txt_lst.length then
    match bandwidth_txt_lst with
    | [] => .error "IndexError: list index out of range"
    | b0 :: _ => .ok (shapeAmbigOut device hostname b0 shape_txt_lst)
  else parseAndCompare device hostname bandwidth_lst shape_txt_lst

/-- The decision tree applied to the two command outputs, src lines 141–280
(the non-bypassed branch).  An `.error` is an exception raised inside the
tree, to be caught by the per-device `except Exception` handler. -/
def evaluate (device hostname bandwidth_output shape_output : String) :
    Except String StepOut :=
  if bandwidth_output = "" ∧ shape_output = "" then
    .ok (missingBothOut device hostname)
  else if bandwidth_output ≠ "" ∧ shape_output = "" then
    .ok (missingShapeOut device hostname bandwidth_output)
  else if bandwidth_output = "" ∧ shape_output ≠ "" then
    .ok (missingBandwidthOut device hostname shape_output)
  else
    match bandwidthTokens bandwidth_output with
    | .error e => .error e
    | .ok bandwidth_txt_lst =>
      if 2 ≤ bandwidth_txt_lst.length then
        .ok (bwAmbigOut device hostname bandwidth_txt_lst shape_output)
      else
        shapeStep device hostname (pysplitSpace bandwidth_output) bandwidth_txt_lst
          shape_output

/-! ### Per-device worker (src lines 66–306) -/

/-- Result of the inner `try` body (src lines 106–280): either the decision
fields together with the bound `hostname` local, or a raised exception,
recording whether the `hostname` local had been assigned when it was
raised. -/
inductive InnerResult where
  | done (hostname : String) (out : StepOut)
  | raised (hostname : Option String) (e : String)
deriving DecidableEq

/-- The inner `try` body: `enable()`, the hostname command and extraction
(`split(' ')[-1]`, src lines 111–115), the `'be'` bypass test, and — only on
the non-bypassed branch — the two config commands and the decision tree. -/
def innerTry (device : String) (env : DeviceEnv) : InnerResult :=
  match env.enable with
  | .error e => .raised none e
  | .ok _ =>
    match env.hostnameCmd with
    | .error e => .raised none e
    | .ok hostname_output =>
      let hostname := pylastSpace hostname_output
      if pyContains hostname "be" then .done hostname (bypassOut device hostname)
      else
        match env.bandwidthCmd with
        | .error e => .raised (some hostname) e
        | .ok bandwidth_output =>
          match env.shapeCmd with
          | .error e => .raised (some hostname) e
          | .ok shape_output =>
            match evaluate device hostname bandwidth_output shape_output with
            | .error e => .raised (some hostname) e
            | .ok out => .done hostname out

/-- Record produced when `ConnectHandler` raises (src lines 295–302);
the `hostname` key is never assigned. -/
def connectFailRecord (device e : String) (now : Nat) : Record :=
  ⟨device, none, .str "see comment", .str "see comment", "Fail",
    "Exception on " ++ device ++ ": " ++ e, now⟩

/-- Record produced by the inner `except Exception` handler (src lines
282–289) when the `hostname` local is bound. -/
def innerExcRecord (device hostname e : String) (now : Nat) : Record :=
  ⟨device, some hostname, .str "see comment", .str "see comment", "Fail",
    "Exception on " ++ device ++ " - " ++ hostname ++ ": " ++ e, now⟩

/-- The exception that escapes `check_shape_bandwidth` when the inner
handler's f-string (src line 283) references the `hostname` local before any
assignment to it: `UnboundLocalError` is not among the netmiko exceptions
caught at src line 295. -/
def unboundLocalMsg : String :=
  "UnboundLocalError: local variable hostname referenced before assignment"

/-- The per-device worker, src lines 66–306.  `.ok r` models the function
returning the dict `r` (with `timestamp` stamped last); `.error e` models an
exception escaping the function.  `net_connect.disconnect()` (src line 292)
is modelled as succeeding. -/
def check_shape_bandwidth (device : String) (env : DeviceEnv) (now : Nat) :
    Except String Record :=
  match env.connect with
  | .error e => .ok (connectFailRecord device e now)
  | .ok _ =>
    match innerTry device env with
    | .done hostname out =>
        .ok ⟨device, some hostname, out.bandwidth, out.shape_avg, out.results,
          out.comments, now⟩
    | .raised (some hostname) e => .ok (innerExcRecord device hostname e now)
    | .raised none _ => .error unboundLocalMsg

/-! ### Orchestration (src lines 352–366) -/

/-- The collection loop of `main`: `for result in executor.map(check_shape_bandwidth,
devices): csvwriter.writerow(result)`.  `executor.map` yields results in input
order and re-raises a worker's escaped exception when its result is consumed,
aborting the loop.  The value is the list of rows written before any abort,
together with the escaped exception, if one occurred. -/
def runAll : List (String × DeviceEnv) → Nat → List Record × Option String
  | [], _ => ([], none)
  | (d, env) :: rest, now =>
    match check_shape_bandwidth d env now with
    | .error e => ([], some e)
    | .ok r =>
      match runAll rest now with
      | (rs, err) => (r :: rs, err)

/-! ### Helper lemmas -/

theorem data_append (a b : String) : (a ++ b).data = a.data ++ b.data := by
  cases a; cases b; rfl

theorem charsHasPrefix_append (pat a b : List Char)
    (h : charsHasPrefix pat a = true) : charsHasPrefix pat (a ++ b) = true := by
  induction pat generalizing a with
  | nil => rfl
  | cons p ps ih =>
    cases a with
    | nil => simp [charsHasPrefix] at h
    | cons c cs =>
      simp only [charsHasPrefix, Bool.and_eq_true, decide_eq_true_eq] at h
      simp only [List.cons_append, charsHasPrefix, Bool.and_eq_true, decide_eq_true_eq]
      exact ⟨h.1, ih cs h.2⟩

theorem charsContains_nil_pat (b : List Char) : charsContains [] b = true := by
  cases b with
  | nil => rfl
  | cons c cs => rfl

theorem charsContains_append_right (pat a b : List Char)
    (h : charsContains pat a = true) : charsContains pat (a ++ b) = true := by
  induction a with
  | nil =>
    cases pat with
    | nil => exact charsContains_nil_pat b
    | cons p ps => simp [charsContains, charsHasPrefix] at h
  | cons c cs ih =>
    simp only [charsContains, Bool.or_eq_true] at h
    simp only [List.cons_append, charsContains, Bool.or_eq_true]
    rcases h with h | h
    · exact Or.inl (charsHasPrefix_append pat (c :: cs) b h)
    · exact Or.inr (ih h)

theorem charsContains_append_left (pat a b : List Char)
    (h : charsContains pat b = true) : charsContains pat (a ++ b) = true := by
  induction a with
  | nil => exact h
  | cons c cs ih =>
    simp only [List.cons_append, charsContains, Bool.or_eq_true]
    exact Or.inr ih

theorem pyContains_append_right (s t sub : String) (h : pyContains s sub = true) :
    pyContains (s ++ t) sub = true := by
  unfold pyContains at h ⊢
  rw [data_append]
  exact charsContains_append_right sub.data s.data t.data h

theorem pyContains_append_left (s t sub : String) (h : pyContains t sub = true) :
    pyContains (s ++ t) sub = true := by
  unfold pyContains at h ⊢
  rw [data_append]
  exact charsContains_append_left sub.data s.data t.data h

theorem splitOnSpaceAux_ne_nil (cs acc : List Char) : splitOnSpaceAux cs acc ≠ [] := by
  induction cs generalizing acc with
  | nil => simp [splitOnSpaceAux]
  | cons c rest ih =>
    by_cases hc : c = ' ' <;> simp [splitOnSpaceAux, hc, ih]

theorem joinSpace_cons_ne_nil (x : String) (xs : List String) (h : xs ≠ []) :
    joinSpace (x :: xs) = x ++ " " ++ joinSpace xs := by
  cases xs with
  | nil => exact absurd rfl h
  | cons y ys => rfl

theorem joinSpace_splitOnSpaceAux (cs acc : List Char) :
    (joinSpace (splitOnSpaceAux cs acc)).data = acc.reverse ++ cs := by
  induction cs generalizing acc with
  | nil => simp [splitOnSpaceAux, joinSpace]
  | cons c rest ih =>
    by_cases hc : c = ' '
    · subst hc
      rw [show splitOnSpaceAux (' ' :: rest) acc
            = (⟨acc.reverse⟩ : String) :: splitOnSpaceAux rest [] from by
          simp [splitOnSpaceAux]]
      rw [joinSpace_cons_ne_nil _ _ (splitOnSpaceAux_ne_nil rest [])]
      rw [data_append, data_append]
      rw [ih []]
      simp
    · rw [show splitOnSpaceAux (c :: rest) acc = splitOnSpaceAux rest (c :: acc) from by
          simp [splitOnSpaceAux, hc]]
      rw [ih (c :: acc)]
      simp

/-- Python's `' '.join(s.split(' ')) == s`: the script's re-join of the space
split (src lines 182, 203, 225, 228) reconstructs the original command
output. -/
theorem joinSpace_pysplitSpace (s : String) : joinSpace (pysplitSpace s) = s := by
  have h := joinSpace_splitOnSpaceAux s.data []
  simp only [List.reverse_nil, List.nil_append] at h
  unfold pysplitSpace
  cases s with
  | mk data => exact congrArg String.mk h

theorem mem_pyUniqAux (x : String) (l seen : List String) :
    x ∈ pyUniqAux l seen ↔ x ∈ l ∧ x ∉ seen := by
  induction l generalizing seen with
  | nil => simp [pyUniqAux]
  | cons y ys ih =>
    by_cases hy : y ∈ seen
    · simp only [pyUniqAux, if_pos hy, ih, List.mem_cons]
      constructor
      · rintro ⟨h1, h2⟩; exact ⟨Or.inr h1, h2⟩
      · rintro ⟨h1 | h1, h2⟩
        · subst h1; exact absurd hy h2
        · exact ⟨h1, h2⟩
    · simp only [pyUniqAux, if_neg hy, List.mem_cons, ih]
      constructor
      · rintro (h | ⟨h1, h2⟩)
        · subst h; exact ⟨Or.inl rfl, hy⟩
        · refine ⟨Or.inr h1, ?_⟩
          intro hx
          exact h2 (Or.inr hx)
      · rintro ⟨h1 | h1, h2⟩
        · exact Or.inl h1
        · by_cases hxy : x = y
          · exact Or.inl hxy
          · exact Or.inr ⟨h1, fun hx => by
              rcases hx with h | h
              · exact absurd h hxy
              · exact h2 h⟩

theorem mem_pyUniq (x : String) (l : List String) : x ∈ pyUniq l ↔ x ∈ l := by
  unfold pyUniq
  rw [mem_pyUniqAux]
  simp

/-- A branch whose status is `"Fail"` and whose bandwidth cell is not numeric
satisfies the status/tri-state characterization. -/
theorem stepSpec_of_fail (out : StepOut) (hres : out.results = "Fail")
    (hb : ∀ b : Int, out.bandwidth ≠ CellVal.int b) :
    (out.results = "Pass" ∨ out.results = "Fail")
  ∧ (out.results = "Pass" ↔
      ∃ b s : Int, out.bandwidth = CellVal.int b ∧ out.shape_avg = CellVal.int s) := by
  refine ⟨Or.inr hres, ?_, ?_⟩
  · intro hp
    rw [hres] at hp
    exact absurd hp (by decide)
  · rintro ⟨b, s, hb', _⟩
    exact absurd hb' (hb b)

/-- All three comparison branches record `Pass` and the two parsed values
(bandwidth scaled by 1000). -/
theorem finalCompare_fields (device hostname : String) (b s : Int) :
    (finalCompare device hostname b s).results = "Pass"
  ∧ (finalCompare device hostname b s).bandwidth = CellVal.int (b * 1000)
  ∧ (finalCompare device hostname b s).shape_avg = CellVal.int s := by
  unfold finalCompare
  by_cases h0 : b * 1000 - s = 0 <;> by_cases h1 : b * 1000 - s = 1 <;>
    simp [h0, h1]

/-- Every normally returned outcome of the decision tree has status `Pass`
or `Fail`, and status `Pass` exactly when both cells are numeric. -/
theorem evaluate_spec (device hostname bw sh : String) (out : StepOut)
    (h : evaluate device hostname bw sh = Except.ok out) :
    (out.results = "Pass" ∨ out.results = "Fail")
  ∧ (out.results = "Pass" ↔
      ∃ b s : Int, out.bandwidth = CellVal.int b ∧ out.shape_avg = CellVal.int s) := by
  unfold evaluate at h
  split_ifs at h with h1 h2 h3
  · obtain rfl : missingBothOut device hostname = out := by injection h
    exact stepSpec_of_fail _ rfl (by intro b; simp [missingBothOut])
  · obtain rfl : missingShapeOut device hostname bw = out := by injection h
    exact stepSpec_of_fail _ rfl (by intro b; simp [missingShapeOut])
  · obtain rfl : missingBandwidthOut device hostname sh = out := by injection h
    exact stepSpec_of_fail _ rfl (by intro b; simp [missingBandwidthOut])
  · split at h
    · exact Except.noConfusion h
    · rename_i toks htoks
      split_ifs at h with hlen
      · obtain rfl : bwAmbigOut device hostname toks sh = out := by injection h
        exact stepSpec_of_fail _ rfl (by intro b; simp [bwAmbigOut])
      · simp only [shapeStep] at h
        split_ifs at h with hslen
        · split at h
          · exact Except.noConfusion h
          · rename_i b0 brest
            obtain rfl : shapeAmbigOut device hostname b0 (shapeTokens sh) = out := by
              injection h
            exact stepSpec_of_fail _ rfl (by intro b; simp [shapeAmbigOut])
        · unfold parseAndCompare at h
          split at h
          · exact Except.noConfusion h
          · split at h
            · exact Except.noConfusion h
            · split at h
              · exact Except.noConfusion h
              · split at h
                · exact Except.noConfusion h
                · injection h with h'
                  subst h'
                  refine ⟨Or.inl (finalCompare_fields _ _ _ _).1, ?_, ?_⟩
                  · intro _
                    exact ⟨_, _, (finalCompare_fields device hostname _ _).2.1,
                      (finalCompare_fields device hostname _ _).2.2⟩
                  · intro _
                    exact (finalCompare_fields _ _ _ _).1

theorem finalCompare_comments_exact (device hostname : String) (b s : Int)
    (h0 : b * 1000 - s = 0) :
    (finalCompare device hostname b s).comments =
      device ++ " - " ++ hostname ++ "(Exact Match) Bandwidth = "
        ++ pyIntRepr (b * 1000) ++ " Shape = " ++ pyIntRepr s := by
  simp only [finalCompare]
  rw [if_pos h0]

theorem finalCompare_comments_delta1 (device hostname : String) (b s : Int)
    (h0 : ¬b * 1000 - s = 0) (h1 : b * 1000 - s = 1) :
    (finalCompare device hostname b s).comments =
      device ++ " - " ++ hostname ++ " (Delta = 1) Bandwidth = "
        ++ pyIntRepr (b * 1000) ++ " Shape = " ++ pyIntRepr s := by
  simp only [finalCompare]
  rw [if_neg h0, if_pos h1]

/-! ### Claims -/

/-- C1: for every pair of integers `b` (bandwidth) and `s` (shape) reaching
the final comparison (src lines 231–280), the engine computes
`delta = b*1000 - s`; `delta = 0` gives Pass with an "Exact Match" comment,
`delta = 1` gives Pass with a "Delta = 1" comment, and every other delta
still records status Pass while the mismatch is logged at error severity;
the record's bandwidth and shape cells hold `b*1000` and `s` in all three
cases. -/
theorem claim1_delta_policy (device hostname : String) (b s : Int) :
    (finalCompare device hostname b s).results = "Pass"
  ∧ (finalCompare device hostname b s).bandwidth = CellVal.int (b * 1000)
  ∧ (finalCompare device hostname b s).shape_avg = CellVal.int s
  ∧ (b * 1000 - s = 0 →
      pyContains (finalCompare device hostname b s).comments "Exact Match" = true)
  ∧ (b * 1000 - s = 1 →
      pyContains (finalCompare device hostname b s).comments "Delta = 1" = true)
  ∧ ((finalCompare device hostname b s).logLevel = "ERROR" ↔
      b * 1000 - s ≠ 0 ∧ b * 1000 - s ≠ 1) := by
  obtain ⟨h1, h2, h3⟩ := finalCompare_fields device hostname b s
  refine ⟨h1, h2, h3, ?_, ?_, ?_⟩
  · intro h0
    rw [finalCompare_comments_exact device hostname b s h0]
    apply pyContains_append_right
    apply pyContains_append_right
    apply pyContains_append_right
    exact pyContains_append_left _ _ _ (by decide)
  · intro hd1
    by_cases h0 : b * 1000 - s = 0
    · rw [h0] at hd1
      exact absurd hd1 (by decide)
    · rw [finalCompare_comments_delta1 device hostname b s h0 hd1]
      apply pyContains_append_right
      apply pyContains_append_right
      apply pyContains_append_right
      exact pyContains_append_left _ _ _ (by decide)
  · by_cases h0 : b * 1000 - s = 0 <;> by_cases hd1 : b * 1000 - s = 1 <;>
      simp [finalCompare, h0, hd1]

/-- Witness for C1 at the spec's exact-match vector: `b = 10`, `s = 10000`. -/
theorem claim1_witness :
    (finalCompare "10.0.0.1" "rtr1" 10 10000).results = "Pass"
  ∧ (finalCompare "10.0.0.1" "rtr1" 10 10000).bandwidth = CellVal.int (10 * 1000)
  ∧ (finalCompare "10.0.0.1" "rtr1" 10 10000).shape_avg = CellVal.int 10000
  ∧ ((10 : Int) * 1000 - 10000 = 0 →
      pyContains (finalCompare "10.0.0.1" "rtr1" 10 10000).comments "Exact Match" = true)
  ∧ ((10 : Int) * 1000 - 10000 = 1 →
      pyContains (finalCompare "10.0.0.1" "rtr1" 10 10000).comments "Delta = 1" = true)
  ∧ ((finalCompare "10.0.0.1" "rtr1" 10 10000).logLevel = "ERROR" ↔
      (10 : Int) * 1000 - 10000 ≠ 0 ∧ (10 : Int) * 1000 - 10000 ≠ 1) :=
  claim1_delta_policy "10.0.0.1" "rtr1" 10 10000

/-- C4: when the remaining shape token (or, if that parses, the last raw
bandwidth token) fails integer parsing, the decision engine propagates the
`ValueError` as an engine fault — it does not coerce the value and does not
return a classification.  The third conjunct: at the per-device boundary the
propagated fault becomes a record whose comment names the device, the
hostname and the error text, distinguishable from every policy
classification. -/
theorem claim4_parse_fault (device hostname : String)
    (bandwidth_lst shape_txt_lst : List String) (e : String) :
    (∀ s_tok, pylast (pysplitWS (joinSpace shape_txt_lst)) = Except.ok s_tok →
        pyint s_tok = Except.error e →
        parseAndCompare device hostname bandwidth_lst shape_txt_lst = Except.error e)
  ∧ (∀ s_tok s_val b_tok,
        pylast (pysplitWS (joinSpace shape_txt_lst)) = Except.ok s_tok →
        pyint s_tok = Except.ok s_val →
        pylast (pysplitWS (joinSpace bandwidth_lst)) = Except.ok b_tok →
        pyint b_tok = Except.error e →
        parseAndCompare device hostname bandwidth_lst shape_txt_lst = Except.error e)
  ∧ (∀ (env : DeviceEnv) (now : Nat) (hn bw sh : String),
        env.connect = Except.ok () → env.enable = Except.ok () →
        env.hostnameCmd = Except.ok hn →
        pyContains (pylastSpace hn) "be" = false →
        env.bandwidthCmd = Except.ok bw → env.shapeCmd = Except.ok sh →
        evaluate device (pylastSpace hn) bw sh = Except.error e →
        check_shape_bandwidth device env now =
          Except.ok (innerExcRecord device (pylastSpace hn) e now)) := by
  refine ⟨?_, ?_, ?_⟩
  · intro s_tok h1 h2
    simp [parseAndCompare, h1, h2]
  · intro s_tok s_val b_tok h1 h2 h3 h4
    simp [parseAndCompare, h1, h2, h3, h4]
  · intro env now hn bw sh hc he hcmd hbe hbw hsh hev
    simp [check_shape_bandwidth, innerTry, hc, he, hcmd, hbe, hbw, hsh, hev]

/-- Witness for C4: a single unparsable shape token `"abc"`. -/
theorem claim4_witness :
    parseAndCompare "10.0.0.1" "rtr1" ["bandwidth", "10"] ["abc"] =
      Except.error "ValueError: invalid literal for int() with base 10: abc" :=
  (claim4_parse_fault "10.0.0.1" "rtr1" ["bandwidth", "10"] ["abc"]
      "ValueError: invalid literal for int() with base 10: abc").1
    "abc" rfl rfl

/-- The hostname extraction as the specification words it: the last
whitespace-separated token of the hostname command output (Python
`s.split()[-1]`).  Modelled from the spec for comparison with the source's
`s.split(' ')[-1]`; the two differ, e.g., on output with a trailing space. -/
def specLastWhitespaceToken (s : String) : String := (pysplitWS s).getLastD ""

/-- C5 counterexample: for hostname output `"hostname abe "` (trailing
space), the last whitespace-separated token is `"abe"`, which contains
`"be"`, yet the script extracts `split(' ')[-1] = ""`, does not bypass, and
classifies the device Pass from its bandwidth/shape content — not
Skipped. -/
theorem claim5_counterexample :
    specLastWhitespaceToken "hostname abe " = "abe"
  ∧ pyContains (specLastWhitespaceToken "hostname abe ") "be" = true
  ∧ (check_shape_bandwidth "10.0.0.1"
        ⟨Except.ok (), Except.ok (), Except.ok "hostname abe ",
          Except.ok "bandwidth 10", Except.ok "shape average 10000"⟩ 0).map
      (fun r => r.results) = Except.ok "Pass"
  ∧ ("Pass" : String) ≠ "Skipped" :=
  ⟨rfl, rfl, rfl, by decide⟩

/-- C5 amended: for every device whose extracted hostname — the last
*space*-separated token of the hostname command output, `split(' ')[-1]`
(src lines 114–115) — contains the substring `"be"`, the outcome is Skipped
with both cells set to the opaque marker, for every bandwidth/shape command
behaviour (the session fields for them are unconstrained, so no further
check runs). -/
theorem claim5_amended (device : String) (env : DeviceEnv) (now : Nat) (hn : String)
    (hc : env.connect = Except.ok ()) (he : env.enable = Except.ok ())
    (hcmd : env.hostnameCmd = Except.ok hn)
    (hbe : pyContains (pylastSpace hn) "be" = true) :
    check_shape_bandwidth device env now = Except.ok
      ⟨device, some (pylastSpace hn), CellVal.str "see comment",
        CellVal.str "see comment", "Skipped",
        device ++ " - " ++ pylastSpace hn ++ " bypassed because of best effort services.",
        now⟩ := by
  simp [check_shape_bandwidth, innerTry, hc, he, hcmd, hbe, bypassOut]

/-- Witness for C5 (amended) at the spec's example `core-be01`, with valid
matching bandwidth/shape content present. -/
theorem claim5_witness :
    check_shape_bandwidth "10.0.0.1"
      ⟨Except.ok (), Except.ok (), Except.ok "hostname core-be01",
        Except.ok "bandwidth 10", Except.ok "shape average 10000"⟩ 0 = Except.ok
      ⟨"10.0.0.1", some (pylastSpace "hostname core-be01"), CellVal.str "see comment",
        CellVal.str "see comment", "Skipped",
        "10.0.0.1" ++ " - " ++ pylastSpace "hostname core-be01"
          ++ " bypassed because of best effort services.", 0⟩ :=
  claim5_amended "10.0.0.1" _ 0 "hostname core-be01" rfl rfl rfl (by decide)

/-- C6: with both outputs present, the bandwidth text is whitespace
tokenized, collapsed to distinct values, the literal token `"bandwidth"`
removed; the ambiguity Fail (both cells the opaque marker, the conflicting
token set and raw shape text in the comment) is returned exactly when 2 or
more tokens remain, and otherwise control proceeds to the shape step.  The
last two conjuncts check the spec's instances: identical duplicate lines
collapse to one token, distinct values leave two. -/
theorem claim6_bandwidth_ambiguity (device hostname bw_out sh_out : String)
    (toks : List String) (hb : bw_out ≠ "") (hs : sh_out ≠ "")
    (ht : bandwidthTokens bw_out = Except.ok toks) :
    (2 ≤ toks.length →
        evaluate device hostname bw_out sh_out =
          Except.ok (bwAmbigOut device hostname toks sh_out))
  ∧ (toks.length < 2 →
        evaluate device hostname bw_out sh_out =
          shapeStep device hostname (pysplitSpace bw_out) toks sh_out)
  ∧ (bwAmbigOut device hostname toks sh_out).bandwidth = CellVal.str "see comment"
  ∧ (bwAmbigOut device hostname toks sh_out).shape_avg = CellVal.str "see comment"
  ∧ (bwAmbigOut device hostname toks sh_out).results = "Fail"
  ∧ (bwAmbigOut device hostname toks sh_out).comments =
      device ++ " - " ++ hostname ++ " has more than 1 bandwidth: "
        ++ pyReprStrList toks ++ ". Shape average output: " ++ sh_out
  ∧ bandwidthTokens "bandwidth 10000\nbandwidth 10000" = Except.ok ["10000"]
  ∧ bandwidthTokens "bandwidth 10000\nbandwidth 20000" =
      Except.ok ["10000", "20000"] := by
  refine ⟨?_, ?_, rfl, rfl, rfl, rfl, rfl, rfl⟩
  · intro h2
    simp [evaluate, hb, hs, ht, h2]
  · intro h2
    have h2' : ¬2 ≤ toks.length := by omega
    simp [evaluate, hb, hs, ht, h2']

/-- Witness for C6 at the spec's duplicate-distinct vector. -/
theorem claim6_witness :
    evaluate "10.0.0.1" "rtr1" "bandwidth 10000\nbandwidth 20000"
        "shape average 10000" =
      Except.ok (bwAmbigOut "10.0.0.1" "rtr1" ["10000", "20000"]
        "shape average 10000") :=
  (claim6_bandwidth_ambiguity "10.0.0.1" "rtr1" "bandwidth 10000\nbandwidth 20000"
      "shape average 10000" ["10000", "20000"] (by decide) (by decide) rfl).1
    (by decide)

/-- C7: with both outputs present and exactly one deduplicated bandwidth
token `b0`, the shape text is whitespace tokenized with every occurrence of
the literal tokens `"shape"` and `"average"` removed and no deduplication;
when 2 or more tokens remain the outcome is Fail with the bandwidth cell
holding `b0` (the sole element, hence the first, of the deduplicated
bandwidth token set), the shape cell the opaque marker, and the remaining
tokens listed in the comment.  The last conjunct checks non-deduplication on
a duplicate-identical shape text. -/
theorem claim7_shape_ambiguity (device hostname bw_out sh_out b0 : String)
    (hb : bw_out ≠ "") (hs : sh_out ≠ "")
    (ht : bandwidthTokens bw_out = Except.ok [b0])
    (hshape : 2 ≤ (shapeTokens sh_out).length) :
    evaluate device hostname bw_out sh_out =
      Except.ok (shapeAmbigOut device hostname b0 (shapeTokens sh_out))
  ∧ (shapeAmbigOut device hostname b0 (shapeTokens sh_out)).bandwidth =
      CellVal.str b0
  ∧ (shapeAmbigOut device hostname b0 (shapeTokens sh_out)).shape_avg =
      CellVal.str "see comment"
  ∧ (shapeAmbigOut device hostname b0 (shapeTokens sh_out)).results = "Fail"
  ∧ (shapeAmbigOut device hostname b0 (shapeTokens sh_out)).comments =
      device ++ " - " ++ hostname ++ " has more than 1 shape average statement: "
        ++ pyReprStrList (shapeTokens sh_out)
  ∧ shapeTokens "shape average 300\nshape average 300" = ["300", "300"] := by
  refine ⟨?_, rfl, rfl, rfl, rfl, rfl⟩
  have hlen : ¬2 ≤ ([b0] : List String).length := by simp
  simp [evaluate, hb, hs, ht, hlen, shapeStep, hshape]

/-- Witness for C7: one bandwidth token, two identical shape tokens. -/
theorem claim7_witness :
    evaluate "10.0.0.1" "rtr1" "bandwidth 10" "shape average 300\nshape average 300" =
      Except.ok (shapeAmbigOut "10.0.0.1" "rtr1" "10"
        (shapeTokens "shape average 300\nshape average 300")) :=
  (claim7_shape_ambiguity "10.0.0.1" "rtr1" "bandwidth 10"
      "shape average 300\nshape average 300" "10" (by decide) (by decide) rfl
      (by decide)).1

/-- C10: when both outputs are present but no whitespace token of the
bandwidth output equals the literal `"bandwidth"`, the unconditional
`bandwidth_txt_lst.remove('bandwidth')` (src line 185) raises `ValueError`
inside the engine, and the device is classified through the generic
per-device exception handler: Fail, both cells the opaque marker, with the
`ValueError` text in the comment — not through any dedicated missing-data or
ambiguity branch. -/
theorem claim10_missing_token (device : String) (env : DeviceEnv) (now : Nat)
    (hn bw sh : String)
    (hc : env.connect = Except.ok ()) (he : env.enable = Except.ok ())
    (hcmd : env.hostnameCmd = Except.ok hn)
    (hbe : pyContains (pylastSpace hn) "be" = false)
    (hbw : env.bandwidthCmd = Except.ok bw) (hsh : env.shapeCmd = Except.ok sh)
    (hb : bw ≠ "") (hs : sh ≠ "")
    (hno : "bandwidth" ∉ pysplitWS bw) :
    check_shape_bandwidth device env now = Except.ok
      (innerExcRecord device (pylastSpace hn)
        "ValueError: list.remove(x): x not in list" now) := by
  have hbt : bandwidthTokens bw =
      Except.error "ValueError: list.remove(x): x not in list" := by
    simp only [bandwidthTokens]
    rw [joinSpace_pysplitSpace]
    have hmem : "bandwidth" ∉ pyUniq (pysplitWS bw) := fun hmem =>
      hno ((mem_pyUniq _ _).mp hmem)
    simp [pyremove, hmem]
  have hev : evaluate device (pylastSpace hn) bw sh =
      Except.error "ValueError: list.remove(x): x not in list" := by
    simp [evaluate, hb, hs, hbt]
  simp [check_shape_bandwidth, innerTry, hc, he, hcmd, hbe, hbw, hsh, hev]

/-- Witness for C10: bandwidth output `"speed 10"` has no `"bandwidth"`
token. -/
theorem claim10_witness :
    check_shape_bandwidth "10.0.0.1"
      ⟨Except.ok (), Except.ok (), Except.ok "hostname rtr1",
        Except.ok "speed 10", Except.ok "shape average 10000"⟩ 0 = Except.ok
      (innerExcRecord "10.0.0.1" (pylastSpace "hostname rtr1")
        "ValueError: list.remove(x): x not in list" 0) :=
  claim10_missing_token "10.0.0.1" _ 0 "hostname rtr1" "speed 10"
    "shape average 10000" rfl rfl rfl (by decide) rfl rfl (by decide) (by decide)
    (by decide)

/-- C8 counterexample: in the missing-shape branch (src line 158) the
bandwidth cell is the literal `'see comments'` (plural), not the opaque
marker string `'see comment'`. -/
theorem claim8_counterexample :
    evaluate "10.0.0.1" "rtr1" "bandwidth 10" "" =
      Except.ok (missingShapeOut "10.0.0.1" "rtr1" "bandwidth 10")
  ∧ (missingShapeOut "10.0.0.1" "rtr1" "bandwidth 10").bandwidth =
      CellVal.str "see comments"
  ∧ CellVal.str "see comments" ≠ CellVal.str "see comment" :=
  ⟨rfl, rfl, by decide⟩

/-- C8 amended: every branch that writes an opaque marker writes the literal
string `"see comment"`, except the missing-data branch with bandwidth
present and shape absent, whose bandwidth field is the literal
`"see comments"` (plural). -/
theorem claim8_amended :
    (∀ device hostname bw, bw ≠ "" →
        evaluate device hostname bw "" =
          Except.ok (missingShapeOut device hostname bw)
        ∧ (missingShapeOut device hostname bw).bandwidth =
            CellVal.str "see comments")
  ∧ (∀ device hostname,
        (bypassOut device hostname).bandwidth = CellVal.str "see comment"
        ∧ (bypassOut device hostname).shape_avg = CellVal.str "see comment")
  ∧ (∀ device hostname sh,
        (missingBandwidthOut device hostname sh).shape_avg =
          CellVal.str "see comment")
  ∧ (∀ device hostname toks sh,
        (bwAmbigOut device hostname toks sh).bandwidth = CellVal.str "see comment"
        ∧ (bwAmbigOut device hostname toks sh).shape_avg = CellVal.str "see comment")
  ∧ (∀ device hostname b0 toks,
        (shapeAmbigOut device hostname b0 toks).shape_avg =
          CellVal.str "see comment")
  ∧ (∀ device e now,
        (connectFailRecord device e now).bandwidth = CellVal.str "see comment"
        ∧ (connectFailRecord device e now).shape_avg = CellVal.str "see comment")
  ∧ (∀ device hostname e now,
        (innerExcRecord device hostname e now).bandwidth = CellVal.str "see comment"
        ∧ (innerExcRecord device hostname e now).shape_avg =
            CellVal.str "see comment") := by
  refine ⟨?_, fun _ _ => ⟨rfl, rfl⟩, fun _ _ _ => rfl, fun _ _ _ _ => ⟨rfl, rfl⟩,
    fun _ _ _ _ => rfl, fun _ _ _ => ⟨rfl, rfl⟩, fun _ _ _ _ => ⟨rfl, rfl⟩⟩
  intro device hostname bw hbw
  exact ⟨by simp [evaluate, hbw], rfl⟩

/-- Witness for C8 (amended) at the concrete missing-shape input. -/
theorem claim8_witness :
    evaluate "10.0.0.2" "rtr2" "bandwidth 20" "" =
      Except.ok (missingShapeOut "10.0.0.2" "rtr2" "bandwidth 20")
  ∧ (missingShapeOut "10.0.0.2" "rtr2" "bandwidth 20").bandwidth =
      CellVal.str "see comments" :=
  claim8_amended.1 "10.0.0.2" "rtr2" "bandwidth 20" (by decide)

/-- The hostname-bypass rule fired for this device's session: connection and
enable succeeded, the hostname command returned output whose extracted
hostname contains `"be"`. -/
def bypassTaken (env : DeviceEnv) : Prop :=
  env.connect = Except.ok () ∧ env.enable = Except.ok () ∧
  ∃ hn, env.hostnameCmd = Except.ok hn ∧ pyContains (pylastSpace hn) "be" = true

/-- C9 counterexample: a bypassed device and an unreachable device produce
records with identical tri-states (both cells the opaque marker, neither
numeric, no comparison performed) yet different statuses — Skipped versus
Fail — so status is not determined by the tri-states plus the numeric
comparison. -/
theorem claim9_counterexample :
    (check_shape_bandwidth "10.0.0.1"
        ⟨Except.ok (), Except.ok (), Except.ok "hostname core-be01",
          Except.ok "", Except.ok ""⟩ 0).map
      (fun r => (r.bandwidth, r.shape_avg, r.results)) =
      Except.ok (CellVal.str "see comment", CellVal.str "see comment", "Skipped")
  ∧ (check_shape_bandwidth "10.0.0.2"
        ⟨Except.error "timed out", Except.ok (), Except.ok "",
          Except.ok "", Except.ok ""⟩ 0).map
      (fun r => (r.bandwidth, r.shape_avg, r.results)) =
      Except.ok (CellVal.str "see comment", CellVal.str "see comment", "Fail")
  ∧ ("Skipped" : String) ≠ "Fail" :=
  ⟨rfl, rfl, by decide⟩

/-- C9 amended: for every returned record, the status is one of Pass / Fail
/ Skipped; it is Pass exactly when both cells are numeric (every performed
comparison yields Pass, so the comparison result plays no role); and it is
Skipped exactly when the hostname-bypass rule fired.  Status is therefore
determined by the tri-states together with the bypass indicator — not by the
tri-states and numeric comparison alone. -/
theorem claim9_amended (device : String) (env : DeviceEnv) (now : Nat) (r : Record)
    (h : check_shape_bandwidth device env now = Except.ok r) :
    (r.results = "Pass" ∨ r.results = "Fail" ∨ r.results = "Skipped")
  ∧ (r.results = "Pass" ↔
      ∃ b s : Int, r.bandwidth = CellVal.int b ∧ r.shape_avg = CellVal.int s)
  ∧ (r.results = "Skipped" ↔ bypassTaken env) := by
  obtain ⟨conn, en, hcmd, bcmd, scmd⟩ := env
  cases conn with
  | error e =>
    simp only [check_shape_bandwidth] at h
    injection h with h'
    subst h'
    refine ⟨Or.inr (Or.inl rfl), ⟨?_, ?_⟩, ⟨?_, ?_⟩⟩
    · intro hp
      have hp' : ("Fail" : String) = "Pass" := hp
      exact absurd hp' (by decide)
    · rintro ⟨b, s, hb, -⟩
      have hb' : CellVal.str "see comment" = CellVal.int b := hb
      exact absurd hb' (by simp)
    · intro hp
      have hp' : ("Fail" : String) = "Skipped" := hp
      exact absurd hp' (by decide)
    · rintro ⟨hc, -, -⟩
      exact Except.noConfusion hc
  | ok u =>
    cases u
    cases en with
    | error e =>
      simp only [check_shape_bandwidth, innerTry] at h
      exact Except.noConfusion h
    | ok u2 =>
      cases u2
      cases hcmd with
      | error e =>
        simp only [check_shape_bandwidth, innerTry] at h
        exact Except.noConfusion h
      | ok hn =>
        by_cases hbe : pyContains (pylastSpace hn) "be" = true
        · simp only [check_shape_bandwidth, innerTry, hbe, if_true] at h
          injection h with h'
          subst h'
          refine ⟨Or.inr (Or.inr rfl), ⟨?_, ?_⟩, ⟨?_, ?_⟩⟩
          · intro hp
            have hp' : ("Skipped" : String) = "Pass" := hp
            exact absurd hp' (by decide)
          · rintro ⟨b, s, hb, -⟩
            have hb' : CellVal.str "see comment" = CellVal.int b := hb
            exact absurd hb' (by simp)
          · intro _
            exact ⟨rfl, rfl, hn, rfl, hbe⟩
          · intro _
            rfl
        · cases bcmd with
          | error e =>
            simp only [check_shape_bandwidth, innerTry, hbe] at h
            injection h with h'
            subst h'
            refine ⟨Or.inr (Or.inl rfl), ⟨?_, ?_⟩, ⟨?_, ?_⟩⟩
            · intro hp
              have hp' : ("Fail" : String) = "Pass" := hp
              exact absurd hp' (by decide)
            · rintro ⟨b, s, hb, -⟩
              have hb' : CellVal.str "see comment" = CellVal.int b := hb
              exact absurd hb' (by simp)
            · intro hp
              have hp' : ("Fail" : String) = "Skipped" := hp
              exact absurd hp' (by decide)
            · rintro ⟨-, -, hn', hcmd', hbe'⟩
              injection hcmd' with h''
              subst h''
              exact absurd hbe' hbe
          | ok bw =>
            cases scmd with
            | error e =>
              simp only [check_shape_bandwidth, innerTry, hbe] at h
              injection h with h'
              subst h'
              refine ⟨Or.inr (Or.inl rfl), ⟨?_, ?_⟩, ⟨?_, ?_⟩⟩
              · intro hp
                have hp' : ("Fail" : String) = "Pass" := hp
                exact absurd hp' (by decide)
              · rintro ⟨b, s, hb, -⟩
                have hb' : CellVal.str "see comment" = CellVal.int b := hb
                exact absurd hb' (by simp)
              · intro hp
                have hp' : ("Fail" : String) = "Skipped" := hp
                exact absurd hp' (by decide)
              · rintro ⟨-, -, hn', hcmd', hbe'⟩
                injection hcmd' with h''
                subst h''
                exact absurd hbe' hbe
            | ok sh =>
              cases hev : evaluate device (pylastSpace hn) bw sh with
              | error e =>
                simp only [check_shape_bandwidth, innerTry, hbe, hev] at h
                injection h with h'
                subst h'
                refine ⟨Or.inr (Or.inl rfl), ⟨?_, ?_⟩, ⟨?_, ?_⟩⟩
                · intro hp
                  have hp' : ("Fail" : String) = "Pass" := hp
                  exact absurd hp' (by decide)
                · rintro ⟨b, s, hb, -⟩
                  have hb' : CellVal.str "see comment" = CellVal.int b := hb
                  exact absurd hb' (by simp)
                · intro hp
                  have hp' : ("Fail" : String) = "Skipped" := hp
                  exact absurd hp' (by decide)
                · rintro ⟨-, -, hn', hcmd', hbe'⟩
                  injection hcmd' with h''
                  subst h''
                  exact absurd hbe' hbe
              | ok out =>
                simp only [check_shape_bandwidth, innerTry, hbe, hev] at h
                injection h with h'
                subst h'
                obtain ⟨hPF, hiff⟩ :=
                  evaluate_spec device (pylastSpace hn) bw sh out hev
                refine ⟨?_, hiff, ⟨?_, ?_⟩⟩
                · rcases hPF with hp | hf
                  · exact Or.inl hp
                  · exact Or.inr (Or.inl hf)
                · intro hp
                  have hp' : out.results = "Skipped" := hp
                  rcases hPF with hf | hf <;> rw [hf] at hp' <;>
                    exact absurd hp' (by decide)
                · rintro ⟨-, -, hn', hcmd', hbe'⟩
                  injection hcmd' with h''
                  subst h''
                  exact absurd hbe' hbe

/-- Witness for C9 (amended) on an unreachable device. -/
theorem claim9_witness :
    ((connectFailRecord "10.0.0.3" "boom" 0).results = "Pass"
      ∨ (connectFailRecord "10.0.0.3" "boom" 0).results = "Fail"
      ∨ (connectFailRecord "10.0.0.3" "boom" 0).results = "Skipped")
  ∧ ((connectFailRecord "10.0.0.3" "boom" 0).results = "Pass" ↔
      ∃ b s : Int,
        (connectFailRecord "10.0.0.3" "boom" 0).bandwidth = CellVal.int b
        ∧ (connectFailRecord "10.0.0.3" "boom" 0).shape_avg = CellVal.int s)
  ∧ ((connectFailRecord "10.0.0.3" "boom" 0).results = "Skipped" ↔
      bypassTaken ⟨Except.error "boom", Except.ok (), Except.ok "", Except.ok "",
        Except.ok ""⟩) :=
  claim9_amended "10.0.0.3"
    ⟨Except.error "boom", Except.ok (), Except.ok "", Except.ok "", Except.ok ""⟩ 0
    (connectFailRecord "10.0.0.3" "boom" 0) rfl

/-- C2 (code bug evaluation): two input addresses, where the first device's
`enable()` raises after a successful connection.  The inner exception
handler's f-string (src line 283) references the still-unassigned `hostname`
local, so `UnboundLocalError` escapes `check_shape_bandwidth`; the
collection loop re-raises it and aborts: zero rows are written for two
requested addresses, the healthy second device included. -/
theorem claim2_run_abort :
    runAll
      [("10.0.0.1", ⟨Except.ok (), Except.error "Failed to enter enable mode",
          Except.ok "", Except.ok "", Except.ok ""⟩),
        ("10.0.0.2", ⟨Except.ok (), Except.ok (), Except.ok "hostname rtr2",
          Except.ok "bandwidth 10", Except.ok "shape average 10000"⟩)] 0 =
      ([], some unboundLocalMsg) := rfl

/-- C3 (code bug evaluation): an enable-mode failure after a successful
connection is not converted into a Fail record — the per-device function
raises `UnboundLocalError` (src line 283 references the unassigned
`hostname` local inside the handler, and src line 295 catches only netmiko
exceptions), so the fault propagates out of the worker. -/
theorem claim3_handler_escape :
    check_shape_bandwidth "10.0.0.1"
      ⟨Except.ok (), Except.error "Failed to enter enable mode",
        Except.ok "", Except.ok "", Except.ok ""⟩ 0 =
      Except.error unboundLocalMsg := rfl

end ShapeAvg
